import Mathlib

/-!
Shallow embedding of `src/backend/app.py` (the cache-aside catalog service):
the redis-backed cache helpers, the product read/write routes, and the
prometheus request instrumentation, together with theorems about them.

Python values that travel through `jsonify`/`json.dumps` are modelled by the
`Json` type below; numbers are rationals (the decimal literals of the source
are exact in ℚ).  A raised Python exception is modelled by `Except PyExn`;
`Except.error` corresponds to an exception propagating out of the handler
(Flask then produces a 500 response).
-/

namespace ECom

/-- JSON values as Python's `json` module produces them. -/
inductive Json where
  | null : Json
  | bool (b : Bool) : Json
  | num (q : ℚ) : Json
  | str (s : String) : Json
  | arr (elts : List Json) : Json
  | obj (fields : List (String × Json)) : Json

/-- Python truthiness of a deserialized JSON value (`if cached_products:`):
`None`, `False`, `0`, `""`, `[]` and `` em dict `` are falsy. -/
def Json.truthy : Json → Bool
  | .null => false
  | .bool b => b
  | .num q => if q = 0 then false else true
  | .str s => if s = "" then false else true
  | .arr elts => !elts.isEmpty
  | .obj fields => !fields.isEmpty

/-- Truthiness of an optional value (Python `None` is falsy). -/
def pyTruthy : Option Json → Bool
  | none => false
  | some v => v.truthy

/-- Big-endian decimal digit characters of `n` (`fuel` bounds the recursion
depth; any `fuel ≥ n` is enough). -/
def decimalAux : Nat → Nat → List Char
  | 0, _ => []
  | fuel + 1, n => if n = 0 then [] else decimalAux fuel (n / 10) ++ [Nat.digitChar (n % 10)]

/-- Decimal numeral of a natural number, mirroring how Python's f-string
`f"product_\x7bproduct_id\x7d"` renders the integer id. -/
def decimalStr (n : Nat) : String :=
  if n = 0 then "0" else (decimalAux n n).asString

/-- A product record as built by the source (`app.py` lines 75-81 and 142-147).
`name`, `price` and `category` are whatever JSON value the request supplied
(`request.json.get` yields `None`, i.e. `Json.null`, for a missing field). -/
structure Product where
  id : Nat
  name : Json
  price : Json
  category : Json

/-- `jsonify` of one product dict (field order as in the source literals). -/
def Product.toJson (p : Product) : Json :=
  .obj [("id", .num p.id), ("name", p.name), ("price", p.price), ("category", p.category)]

/-- The module-level `PRODUCTS` list (`app.py` lines 75-81). -/
def PRODUCTS : List Product :=
  [⟨1, .str "Smartphone", .num 699.99, .str "Electronics"⟩,
   ⟨2, .str "Laptop", .num 1299.99, .str "Electronics"⟩,
   ⟨3, .str "Headphones", .num 199.99, .str "Electronics"⟩,
   ⟨4, .str "T-shirt", .num 24.99, .str "Clothing"⟩,
   ⟨5, .str "Jeans", .num 49.99, .str "Clothing"⟩]

/-- `jsonify(PRODUCTS)`: the serialized product list. -/
def productsJson (products : List Product) : Json :=
  .arr (products.map Product.toJson)

/-- An uncaught Python exception propagating out of a handler (Flask would
turn it into a 500 response). -/
inductive PyExn where
  | redisError    -- raised by the redis client when the backend errors at call time
  | attrError     -- e.g. `request.json.get` on a body that is not a dict

/-- First-binding association-list lookup: redis `GET` on the key space the
app uses (each `SETEX` replaces the previous binding of its key). -/
def storeGet : List (String × Json) → String → Option Json
  | [], _ => none
  | (k, v) :: t, key => if k = key then some v else storeGet t key

/-- The connected redis client: its key/value store plus a fault flag.
`faulty = true` models a backend that errors on every call (timeout,
connection refused, ...) — the client exists (the startup `ping` succeeded)
but calls raise.  TTLs only govern backend expiry (wall-clock behavior that
returns no value to the app), so the store keeps just the current bindings. -/
structure Redis where
  store : List (String × Json)
  faulty : Bool

/-- `redis_client.get(key)` — raises when the backend is down at call time. -/
def Redis.get (r : Redis) (key : String) : Except PyExn (Option Json) :=
  if r.faulty then .error .redisError else .ok (storeGet r.store key)

/-- `redis_client.setex(key, expires, json.dumps(data))` — replaces the
binding of `key`; raises when the backend is down at call time. -/
def Redis.setex (r : Redis) (key : String) (expires : Nat) (data : Json) : Except PyExn Redis :=
  if r.faulty then .error .redisError
  else .ok ⟨(key, data) :: r.store.filter (fun kv => kv.1 != key), r.faulty⟩

/-- `redis_client.delete(key)` — raises when the backend is down at call time. -/
def Redis.delete (r : Redis) (key : String) : Except PyExn Redis :=
  if r.faulty then .error .redisError
  else .ok ⟨r.store.filter (fun kv => kv.1 != key), r.faulty⟩

/-- Module state of `app.py`: the global `redis_client` (`none` when the
startup connection attempt failed, lines 47-55) and the global `PRODUCTS`
list. -/
structure AppState where
  redis_client : Option Redis
  products : List Product

/-- An HTTP response: `jsonify` body plus status code. -/
structure Response where
  body : Json
  status : Nat

/-- Result of one route handler: the response, the module state after the
call, and a ghost count of how many times the handler consulted the source
of record (the `PRODUCTS` scan / listing); the ghost field exists only for
stating cache-hit properties and is determined by the control path taken. -/
structure RouteResult where
  resp : Response
  state : AppState
  srcCalls : Nat

/-- `get_cached_data(key)` (`app.py` lines 84-90).  The `if cached:` test of
line 87 is on the serialized byte string, which `json.dumps` never makes
empty, so a present binding is always taken; the deserialized value is
returned.  Note there is no try/except: a client-raised error propagates. -/
def get_cached_data (client : Option Redis) (key : String) : Except PyExn (Option Json) :=
  match client with
  | some r =>
    match r.get key with
    | .error e => .error e
    | .ok (some cached) => .ok (some cached)
    | .ok none => .ok none
  | none => .ok none

/-- `set_cached_data(key, data, expires=3600)` (`app.py` lines 92-95).
Returns the client state after the call; no try/except here either. -/
def set_cached_data (client : Option Redis) (key : String) (data : Json) :
    Except PyExn (Option Redis) :=
  match client with
  | some r =>
    match r.setex key 3600 data with
    | .error e => .error e
    | .ok r2 => .ok (some r2)
  | none => .ok none

/-- The cache-miss tail of `get_products` (`app.py` lines 115-117):
log, repopulate the aggregate key, return the full list. -/
def products_read_miss (s : AppState) : Except PyExn RouteResult :=
  match set_cached_data s.redis_client "all_products" (productsJson s.products) with
  | .error e => .error e
  | .ok client2 => .ok ⟨⟨productsJson s.products, 200⟩, ⟨client2, s.products⟩, 1⟩

/-- `GET /api/products` (`app.py` lines 107-117). -/
def get_products (s : AppState) : Except PyExn RouteResult :=
  match get_cached_data s.redis_client "all_products" with
  | .error e => .error e
  | .ok cached_products =>
    match cached_products with
    | some v => if v.truthy then .ok ⟨⟨v, 200⟩, s, 0⟩ else products_read_miss s
    | none => products_read_miss s

/-- The per-id cache key `f"product_\x7bproduct_id\x7d"` (`app.py` line 121). -/
def product_cache_key (product_id : Nat) : String :=
  "product_" ++ decimalStr product_id

/-- The cache-miss tail of `get_product` (`app.py` lines 127-135): scan
`PRODUCTS` for the id; on success populate the per-id key and return the
record, otherwise return the 404 body.  The scan is the source lookup. -/
def product_read_miss (s : AppState) (product_id : Nat) : Except PyExn RouteResult :=
  match s.products.find? (fun p => p.id == product_id) with
  | some product =>
    match set_cached_data s.redis_client (product_cache_key product_id) product.toJson with
    | .error e => .error e
    | .ok client2 => .ok ⟨⟨product.toJson, 200⟩, ⟨client2, s.products⟩, 1⟩
  | none => .ok ⟨⟨.obj [("error", .str "Product not found")], 404⟩, s, 1⟩

/-- `GET /api/products/<int:product_id>` (`app.py` lines 119-135). -/
def get_product (s : AppState) (product_id : Nat) : Except PyExn RouteResult :=
  match get_cached_data s.redis_client (product_cache_key product_id) with
  | .error e => .error e
  | .ok cached_product =>
    match cached_product with
    | some v => if v.truthy then .ok ⟨⟨v, 200⟩, s, 0⟩ else product_read_miss s product_id
    | none => product_read_miss s product_id

/-- The product dict `create_product` builds (`app.py` lines 142-147):
the next id is `len(PRODUCTS) + 1`, and each field is `request.json.get`
of the payload (`Json.null` when the key is absent). -/
def newProductOf (products : List Product) (fields : List (String × Json)) : Product :=
  ⟨products.length + 1,
   (storeGet fields "name").getD .null,
   (storeGet fields "price").getD .null,
   (storeGet fields "category").getD .null⟩

/-- `POST /api/products` (`app.py` lines 137-157).  `body` is Flask's
`request.json` (`none` when the request carries no JSON).  Line 139 rejects
a falsy body; otherwise the new product is built with `request.json.get`
(which raises `AttributeError` if the body is not a dict, and yields `None`
for a missing key), appended to `PRODUCTS`, and — only when the client
exists — the aggregate key is deleted with no try/except around it. -/
def create_product (s : AppState) (body : Option Json) : Except PyExn RouteResult :=
  if pyTruthy body = false then
    .ok ⟨⟨.obj [("error", .str "Invalid request")], 400⟩, s, 0⟩
  else
    match body.getD .null with
    | .obj fields =>
      let new_product : Product := newProductOf s.products fields
      let products2 := s.products ++ [new_product]
      match s.redis_client with
      | some r =>
        match r.delete "all_products" with
        | .error e => .error e
        | .ok r2 => .ok ⟨⟨new_product.toJson, 201⟩, ⟨some r2, products2⟩, 0⟩
      | none => .ok ⟨⟨new_product.toJson, 201⟩, ⟨none, products2⟩, 0⟩
    | _ => .error .attrError

/-- One inbound request to the catalog API. -/

inductive Op where
  | getAll : Op
  | getOne (product_id : Nat) : Op
  | create (body : Option Json) : Op

/-- Dispatch one request to its handler. -/
def handle (s : AppState) (op : Op) : Except PyExn RouteResult :=
  match op with
  | .getAll => get_products s
  | .getOne product_id => get_product s product_id
  | .create body => create_product s body

/-- One request/response exchange as the server sees it: a raised exception
becomes Flask's 500 response and the process carries on.  The module state
kept on the error branch is the pre-call state, which is exact whenever the
client is absent or healthy: the only exception reachable then
(`AttributeError` from `request.json.get`) is raised before any mutation. -/
def stepTrace (s : AppState) (op : Op) : Response × AppState :=
  match handle s op with
  | .ok r => (r.resp, r.state)
  | .error _ => (⟨.obj [("error", .str "Internal Server Error")], 500⟩, s)

/-- The responses the server emits for a sequence of requests. -/
def runTrace (s : AppState) : List Op → List Response
  | [] => []
  | op :: ops =>
    let p := stepTrace s op
    p.1 :: runTrace p.2 ops

/-- The response a read of one id produces when answered from the source. -/
def product_response (products : List Product) (product_id : Nat) : Response :=
  match products.find? (fun p => p.id == product_id) with
  | some p => ⟨p.toJson, 200⟩
  | none => ⟨.obj [("error", .str "Product not found")], 404⟩

/-- Cache coherence: every binding the store holds is exactly what the
read paths would recompute from the current source — the aggregate key
holds the serialized current list, and a per-id key holds the serialized
record that the source scan yields for that id. -/
def coherent (store : List (String × Json)) (products : List Product) : Prop :=
  ∀ k v, (k, v) ∈ store →
    (k = "all_products" ∧ v = productsJson products) ∨
    (∃ product_id p, k = product_cache_key product_id ∧
      products.find? (fun q => q.id == product_id) = some p ∧ v = p.toJson)

/-- Label of the request counter (`app_name`, `method`, `endpoint`,
`http_status`), `app.py` lines 13-16. -/
abbrev Label4 := String × String × String × Nat

/-- Label of the latency histogram (`app_name`, `method`, `endpoint`),
`app.py` lines 17-20. -/
abbrev Label3 := String × String × String

/-- The prometheus registry state: a counter per 4-label and the list of
latency observations per 3-label (the histogram's observation count is the
length of that list). -/
structure Metrics where
  requestCount : Label4 → Nat
  latencyObs : Label3 → List Int

/-- `REQUEST_COUNT.labels(...).inc()`. -/
def Metrics.inc (m : Metrics) (label : Label4) : Metrics :=
  ⟨fun l => if l = label then m.requestCount l + 1 else m.requestCount l, m.latencyObs⟩

/-- `REQUEST_LATENCY.labels(...).observe(d)`. -/
def Metrics.observe (m : Metrics) (label : Label3) (d : Int) : Metrics :=
  ⟨m.requestCount, fun l => if l = label then m.latencyObs l ++ [d] else m.latencyObs l⟩

/-- A fresh registry. -/
def emptyMetrics : Metrics := ⟨fun _ => 0, fun _ => []⟩

/-- One completed request as the instrumentation hooks see it: method, the
raw `request.path`, the response status, the clock value `before_request`
stored (`app.py` lines 63-65) and the clock value `after_request` reads. -/
structure Req where
  method : String
  path : String
  status : Nat
  t0 : Int
  t1 : Int

/-- `after_request(response)` (`app.py` lines 67-72): observe the elapsed
latency under (`app_name`, method, `request.path`) and bump the counter
under (`app_name`, method, `request.path`, status). -/
def after_request (m : Metrics) (q : Req) : Metrics :=
  let request_latency := q.t1 - q.t0
  let m1 := m.observe ("ecommerce-api", q.method, q.path) request_latency
  m1.inc ("ecommerce-api", q.method, q.path, q.status)

/-- Run the instrumentation over a sequence of completed requests. -/
def instrumentAll (m : Metrics) : List Req → Metrics
  | [] => m
  | q :: qs => instrumentAll (after_request m q) qs

/-- The route templates `app.py` declares (lines 58, 98, 107, 119, 137). -/
def declaredRoutes : List String :=
  ["/metrics", "/health", "/api/products", "/api/products/<int:product_id>"]

/-- The raw request path of a single-product read. -/
def productPath (product_id : Nat) : String :=
  "/api/products/" ++ decimalStr product_id

/-! ### Decimal numerals are injective -/

lemma decimalAux_eq_digits :
    ∀ fuel n, n ≤ fuel → decimalAux fuel n = ((Nat.digits 10 n).map Nat.digitChar).reverse := by
  intro fuel
  induction fuel with
  | zero =>
    intro n h
    have h0 : n = 0 := Nat.le_zero.mp h
    subst h0
    simp [decimalAux]
  | succ fuel ih =>
    intro n h
    by_cases h0 : n = 0
    · subst h0; simp [decimalAux]
    · have hdiv : n / 10 ≤ fuel := by
        have : n / 10 < n := Nat.div_lt_self (Nat.pos_of_ne_zero h0) (by norm_num)
        omega
      rw [decimalAux, if_neg h0, ih (n / 10) hdiv,
        Nat.digits_def' (by norm_num : (1:ℕ) < 10) (Nat.pos_of_ne_zero h0),
        List.map_cons, List.reverse_cons]

lemma decimalStr_eq_digits (n : Nat) (h : n ≠ 0) :
    decimalStr n = (((Nat.digits 10 n).map Nat.digitChar).reverse).asString := by
  rw [decimalStr, if_neg h, decimalAux_eq_digits n n le_rfl]

lemma digitChar_inj_on : ∀ a, a < 10 → ∀ b, b < 10 → Nat.digitChar a = Nat.digitChar b → a = b := by
  decide

lemma map_digitChar_inj :
    ∀ l1 l2 : List Nat, (∀ x ∈ l1, x < 10) → (∀ x ∈ l2, x < 10) →
      l1.map Nat.digitChar = l2.map Nat.digitChar → l1 = l2 := by
  intro l1
  induction l1 with
  | nil =>
    intro l2 _ _ h
    cases l2 with
    | nil => rfl
    | cons b t => simp at h
  | cons a t ih =>
    intro l2 h1 h2 h
    cases l2 with
    | nil => simp at h
    | cons b t2 =>
      simp only [List.map_cons, List.cons.injEq] at h
      have hab := digitChar_inj_on a (h1 a (List.mem_cons_self a t))
        b (h2 b (List.mem_cons_self b t2)) h.1
      subst hab
      rw [ih t2 (fun x hx => h1 x (List.mem_cons_of_mem a hx))
        (fun x hx => h2 x (List.mem_cons_of_mem a hx)) h.2]

lemma digits_bounded (n : Nat) : ∀ x ∈ Nat.digits 10 n, x < 10 :=
  fun _ hx => Nat.digits_lt_base (by norm_num) hx

lemma decimalStr_inj : ∀ a b : Nat, decimalStr a = decimalStr b → a = b := by
  have key : ∀ b : Nat, b ≠ 0 → decimalStr b ≠ "0" := by
    intro b hb h
    have hd : ((Nat.digits 10 b).map Nat.digitChar).reverse = ['0'] := by
      rw [decimalStr_eq_digits b hb] at h
      exact congrArg String.data h
    have h1 : (Nat.digits 10 b).map Nat.digitChar = ['0'] := by
      rw [← List.reverse_reverse (Nat.digits 10 b |>.map Nat.digitChar), hd]
      rfl
    have h2 : Nat.digits 10 b = [0] := by
      have : (Nat.digits 10 b).map Nat.digitChar = [0].map Nat.digitChar := h1
      exact map_digitChar_inj _ _ (digits_bounded b) (by simp) this
    have h3 := Nat.ofDigits_digits 10 b
    rw [h2] at h3
    simp [Nat.ofDigits] at h3
    exact hb h3.symm
  intro a b h
  by_cases ha : a = 0 <;> by_cases hb : b = 0
  · rw [ha, hb]
  · exact absurd (by rw [← h, ha]; rfl) (key b hb)
  · exact absurd (by rw [h, hb]; rfl) (key a ha)
  · rw [decimalStr_eq_digits a ha, decimalStr_eq_digits b hb] at h
    have hd : ((Nat.digits 10 a).map Nat.digitChar).reverse
        = ((Nat.digits 10 b).map Nat.digitChar).reverse := congrArg String.data h
    rw [List.reverse_inj] at hd
    have h9 := map_digitChar_inj _ _ (digits_bounded a) (digits_bounded b) hd
    calc a = Nat.ofDigits 10 (Nat.digits 10 a) := (Nat.ofDigits_digits 10 a).symm
      _ = Nat.ofDigits 10 (Nat.digits 10 b) := by rw [h9]
      _ = b := Nat.ofDigits_digits 10 b

lemma product_cache_key_inj {a b : Nat} (h : product_cache_key a = product_cache_key b) :
    a = b := by
  have h2 := congrArg String.data h
  rw [product_cache_key, product_cache_key, String.data_append, String.data_append] at h2
  have h3 := List.append_cancel_left h2
  have h4 : decimalStr a = decimalStr b := by
    apply String.ext
    exact h3
  exact decimalStr_inj a b h4

lemma product_cache_key_ne_all (product_id : Nat) :
    product_cache_key product_id ≠ "all_products" := by
  intro h
  have h2 := congrArg String.data h
  rw [product_cache_key, String.data_append] at h2
  have h3 := congrArg List.head? h2
  simp at h3

/-! ### Association-store facts -/

lemma storeGet_mem : ∀ {l : List (String × Json)} {k : String} {v : Json},
    storeGet l k = some v → (k, v) ∈ l := by
  intro l
  induction l with
  | nil => intro k v h; simp [storeGet] at h
  | cons kv t ih =>
    obtain ⟨k1, v1⟩ := kv
    intro k v h
    by_cases he : k1 = k
    · subst he
      rw [storeGet, if_pos rfl] at h
      injection h with hv
      rw [← hv]
      exact List.mem_cons_self _ _
    · rw [storeGet, if_neg he] at h
      exact List.mem_cons_of_mem _ (ih h)

lemma storeGet_cons_self (k : String) (v : Json) (t : List (String × Json)) :
    storeGet ((k, v) :: t) k = some v := by
  rw [storeGet, if_pos rfl]

lemma storeGet_filter_self (l : List (String × Json)) (k : String) :
    storeGet (l.filter fun kv => kv.1 != k) k = none := by
  induction l with
  | nil => rfl
  | cons kv t ih =>
    obtain ⟨k1, v1⟩ := kv
    by_cases he : k1 = k
    · subst he
      simpa [List.filter_cons] using ih
    · have hb : (k1 != k) = true := bne_iff_ne.mpr he
      rw [List.filter_cons]
      simp only [hb, if_true]
      rw [storeGet, if_neg he]
      exact ih

/-! ### Truthiness facts -/

lemma truthy_toJson (p : Product) : (Product.toJson p).truthy = true := rfl

lemma pyTruthy_obj_of_ne {fields : List (String × Json)} (h : fields ≠ []) :
    pyTruthy (some (.obj fields)) = true := by
  cases fields with
  | nil => exact absurd rfl h
  | cons f t => rfl

/-! ### Coherence preservation -/

lemma coherent_nil (products : List Product) : coherent [] products := by
  intro k v h
  exact absurd h (List.not_mem_nil _)

lemma coherent_filter {store : List (String × Json)} {products : List Product}
    (hc : coherent store products) (f : String × Json → Bool) :
    coherent (store.filter f) products :=
  fun k v hm => hc k v (List.mem_filter.mp hm).1

lemma coherent_cons_all {store : List (String × Json)} {products : List Product}
    (hc : coherent store products) :
    coherent (("all_products", productsJson products) :: store) products := by
  intro k v hm
  rcases List.mem_cons.mp hm with heq | hmem
  · injection heq with h1 h2
    subst h1; subst h2
    exact Or.inl ⟨rfl, rfl⟩
  · exact hc k v hmem

lemma coherent_cons_key {store : List (String × Json)} {products : List Product}
    {product_id : Nat} {p : Product} (hc : coherent store products)
    (hfind : products.find? (fun q => q.id == product_id) = some p) :
    coherent ((product_cache_key product_id, p.toJson) :: store) products := by
  intro k v hm
  rcases List.mem_cons.mp hm with heq | hmem
  · injection heq with h1 h2
    subst h1; subst h2
    exact Or.inr ⟨product_id, p, rfl, hfind, rfl⟩
  · exact hc k v hmem

lemma coherent_after_create {store : List (String × Json)} {products : List Product}
    (hc : coherent store products) (newp : Product) :
    coherent (store.filter fun kv => kv.1 != "all_products") (products ++ [newp]) := by
  intro k v hm
  obtain ⟨hmem, hkey⟩ := List.mem_filter.mp hm
  have hkne : k ≠ "all_products" := bne_iff_ne.mp hkey
  rcases hc k v hmem with ⟨h1, _⟩ | ⟨pid, p, hk, hfind, hv⟩
  · exact absurd h1 hkne
  · refine Or.inr ⟨pid, p, hk, ?_, hv⟩
    rw [List.find?_append, hfind]
    rfl

/-! ### Behavior of the cache helpers and handlers -/

lemma get_cached_data_none (key : String) : get_cached_data none key = .ok none := rfl

lemma get_cached_data_healthy {r : Redis} (hf : r.faulty = false) (key : String) :
    get_cached_data (some r) key = .ok (storeGet r.store key) := by
  cases hs : storeGet r.store key <;> simp [get_cached_data, Redis.get, hf, hs]

lemma get_cached_data_faulty {r : Redis} (hf : r.faulty = true) (key : String) :
    get_cached_data (some r) key = .error .redisError := by
  simp [get_cached_data, Redis.get, hf]

lemma products_read_miss_healthy {products : List Product} {r : Redis} (hf : r.faulty = false) :
    products_read_miss ⟨some r, products⟩ =
      .ok ⟨⟨productsJson products, 200⟩,
        ⟨some ⟨("all_products", productsJson products) ::
          r.store.filter (fun kv => kv.1 != "all_products"), false⟩, products⟩, 1⟩ := by
  simp [products_read_miss, set_cached_data, Redis.setex, hf]

lemma product_read_miss_healthy {products : List Product} {r : Redis} {product_id : Nat}
    {p : Product} (hf : r.faulty = false)
    (hfind : products.find? (fun q => q.id == product_id) = some p) :
    product_read_miss ⟨some r, products⟩ product_id =
      .ok ⟨⟨p.toJson, 200⟩,
        ⟨some ⟨(product_cache_key product_id, p.toJson) ::
          r.store.filter (fun kv => kv.1 != product_cache_key product_id), false⟩, products⟩, 1⟩ := by
  simp [product_read_miss, hfind, set_cached_data, Redis.setex, hf]

lemma product_read_miss_notfound {s : AppState} {product_id : Nat}
    (hfind : s.products.find? (fun q => q.id == product_id) = none) :
    product_read_miss s product_id =
      .ok ⟨⟨.obj [("error", .str "Product not found")], 404⟩, s, 1⟩ := by
  simp [product_read_miss, hfind]

lemma get_products_none (products : List Product) :
    get_products ⟨none, products⟩ =
      .ok ⟨⟨productsJson products, 200⟩, ⟨none, products⟩, 1⟩ := rfl

lemma get_product_none (products : List Product) (product_id : Nat) :
    get_product ⟨none, products⟩ product_id =
      .ok ⟨product_response products product_id, ⟨none, products⟩, 1⟩ := by
  cases hfind : products.find? (fun q => q.id == product_id) with
  | some p =>
    simp [get_product, get_cached_data, product_read_miss, set_cached_data,
      product_response, hfind]
  | none =>
    simp [get_product, get_cached_data, product_read_miss, product_response, hfind]

lemma get_products_sim {products : List Product} {r : Redis} (hf : r.faulty = false)
    (hc : coherent r.store products) :
    ∃ r2 n, get_products ⟨some r, products⟩ =
        .ok ⟨⟨productsJson products, 200⟩, ⟨some r2, products⟩, n⟩
      ∧ r2.faulty = false ∧ coherent r2.store products := by
  cases hs : storeGet r.store "all_products" with
  | some v =>
    rcases hc _ _ (storeGet_mem hs) with ⟨_, hv⟩ | ⟨pid, p, hk, _, _⟩
    · subst hv
      by_cases ht : (productsJson products).truthy
      · exact ⟨r, 0, by simp [get_products, get_cached_data_healthy hf, hs, ht], hf, hc⟩
      · refine ⟨⟨("all_products", productsJson products) ::
          r.store.filter (fun kv => kv.1 != "all_products"), false⟩, 1, ?_, rfl,
          coherent_cons_all (coherent_filter hc _)⟩
        simp [get_products, get_cached_data_healthy hf, hs, ht, products_read_miss_healthy hf]
    · exact absurd hk.symm (product_cache_key_ne_all pid)
  | none =>
    refine ⟨⟨("all_products", productsJson products) ::
      r.store.filter (fun kv => kv.1 != "all_products"), false⟩, 1, ?_, rfl,
      coherent_cons_all (coherent_filter hc _)⟩
    simp [get_products, get_cached_data_healthy hf, hs, products_read_miss_healthy hf]

lemma get_product_sim {products : List Product} {r : Redis} (product_id : Nat)
    (hf : r.faulty = false) (hc : coherent r.store products) :
    ∃ r2 n, get_product ⟨some r, products⟩ product_id =
        .ok ⟨product_response products product_id, ⟨some r2, products⟩, n⟩
      ∧ r2.faulty = false ∧ coherent r2.store products := by
  cases hs : storeGet r.store (product_cache_key product_id) with
  | some v =>
    rcases hc _ _ (storeGet_mem hs) with ⟨hk, _⟩ | ⟨pid, p, hk, hfind, hv⟩
    · exact absurd hk (product_cache_key_ne_all product_id)
    · have hpid : product_id = pid := product_cache_key_inj hk
      subst hpid
      subst hv
      refine ⟨r, 0, ?_, hf, hc⟩
      simp [get_product, get_cached_data_healthy hf, hs, truthy_toJson,
        product_response, hfind]
  | none =>
    cases hfind : products.find? (fun q => q.id == product_id) with
    | some p =>
      refine ⟨⟨(product_cache_key product_id, p.toJson) ::
        r.store.filter (fun kv => kv.1 != product_cache_key product_id), false⟩, 1, ?_, rfl,
        coherent_cons_key (coherent_filter hc _) hfind⟩
      simp [get_product, get_cached_data_healthy hf, hs,
        product_read_miss_healthy hf hfind, product_response, hfind]
    | none =>
      refine ⟨r, 1, ?_, hf, hc⟩
      have h404 := product_read_miss_notfound (s := ⟨some r, products⟩) hfind
      simp [get_product, get_cached_data_healthy hf, hs, h404, product_response, hfind]

lemma create_rejected {s : AppState} {body : Option Json} (h : pyTruthy body = false) :
    create_product s body =
      .ok ⟨⟨.obj [("error", .str "Invalid request")], 400⟩, s, 0⟩ := by
  rw [create_product, if_pos h]

lemma create_ok_none {s : AppState} {fields : List (String × Json)}
    (hcl : s.redis_client = none) (hne : fields ≠ []) :
    create_product s (some (.obj fields)) =
      .ok ⟨⟨(newProductOf s.products fields).toJson, 201⟩,
        ⟨none, s.products ++ [newProductOf s.products fields]⟩, 0⟩ := by
  simp [create_product, pyTruthy_obj_of_ne hne, hcl]

lemma create_ok_healthy {s : AppState} {r : Redis} {fields : List (String × Json)}
    (hcl : s.redis_client = some r) (hf : r.faulty = false) (hne : fields ≠ []) :
    create_product s (some (.obj fields)) =
      .ok ⟨⟨(newProductOf s.products fields).toJson, 201⟩,
        ⟨some ⟨r.store.filter (fun kv => kv.1 != "all_products"), false⟩,
          s.products ++ [newProductOf s.products fields]⟩, 0⟩ := by
  simp [create_product, pyTruthy_obj_of_ne hne, hcl, Redis.delete, hf]

lemma create_faulty_client {s : AppState} {r : Redis} {fields : List (String × Json)}
    (hcl : s.redis_client = some r) (hf : r.faulty = true) (hne : fields ≠ []) :
    create_product s (some (.obj fields)) = .error .redisError := by
  simp [create_product, pyTruthy_obj_of_ne hne, hcl, Redis.delete, hf]

/-! ### The simulation between the cached and the cache-free service -/

lemma step_sim {products : List Product} {r : Redis} (op : Op) (hf : r.faulty = false)
    (hc : coherent r.store products) :
    ∃ r2 products2,
      (stepTrace ⟨some r, products⟩ op).1 = (stepTrace ⟨none, products⟩ op).1 ∧
      (stepTrace ⟨some r, products⟩ op).2 = ⟨some r2, products2⟩ ∧
      (stepTrace ⟨none, products⟩ op).2 = ⟨none, products2⟩ ∧
      r2.faulty = false ∧ coherent r2.store products2 := by
  cases op with
  | getAll =>
    obtain ⟨r2, n, heq, hf2, hc2⟩ := get_products_sim hf hc
    refine ⟨r2, products, ?_, ?_, ?_, hf2, hc2⟩ <;>
      simp [stepTrace, handle, heq, get_products_none]
  | getOne product_id =>
    obtain ⟨r2, n, heq, hf2, hc2⟩ := get_product_sim product_id hf hc
    refine ⟨r2, products, ?_, ?_, ?_, hf2, hc2⟩ <;>
      simp [stepTrace, handle, heq, get_product_none]
  | create body =>
    cases body with
    | none =>
      have h0 : pyTruthy none = false := rfl
      refine ⟨r, products, ?_, ?_, ?_, hf, hc⟩ <;>
        simp [stepTrace, handle, create_rejected h0]
    | some j =>
      by_cases hj : j.truthy = false
      · have h : pyTruthy (some j) = false := hj
        refine ⟨r, products, ?_, ?_, ?_, hf, hc⟩ <;>
          simp [stepTrace, handle, create_rejected h]
      · have hj2 : j.truthy = true := by
          revert hj; cases j.truthy <;> simp
        cases j with
        | null => exact absurd rfl hj
        | obj fields =>
          have hne : fields ≠ [] := by
            intro hnil
            subst hnil
            exact hj rfl
          have hcl1 : (⟨some r, products⟩ : AppState).redis_client = some r := rfl
          have hcl2 : (⟨none, products⟩ : AppState).redis_client = none := rfl
          refine ⟨⟨r.store.filter (fun kv => kv.1 != "all_products"), false⟩,
            products ++ [newProductOf products fields], ?_, ?_, ?_, rfl,
            coherent_after_create hc _⟩ <;>
            simp [stepTrace, handle, create_ok_healthy hcl1 hf hne, create_ok_none hcl2 hne]
        | bool b =>
          refine ⟨r, products, ?_, ?_, ?_, hf, hc⟩ <;>
            simp [stepTrace, handle, create_product, pyTruthy, hj2]
        | num q =>
          refine ⟨r, products, ?_, ?_, ?_, hf, hc⟩ <;>
            simp [stepTrace, handle, create_product, pyTruthy, hj2]
        | str s2 =>
          refine ⟨r, products, ?_, ?_, ?_, hf, hc⟩ <;>
            simp [stepTrace, handle, create_product, pyTruthy, hj2]
        | arr elts =>
          refine ⟨r, products, ?_, ?_, ?_, hf, hc⟩ <;>
            simp [stepTrace, handle, create_product, pyTruthy, hj2]

lemma run_sim : ∀ (ops : List Op) (products : List Product) (r : Redis),
    r.faulty = false → coherent r.store products →
    runTrace ⟨some r, products⟩ ops = runTrace ⟨none, products⟩ ops := by
  intro ops
  induction ops with
  | nil => intro products r hf hc; rfl
  | cons op ops ih =>
    intro products r hf hc
    obtain ⟨r2, products2, h1, h2, h3, hf2, hc2⟩ := step_sim op hf hc
    simp only [runTrace]
    rw [h1, h2, h3, ih products2 r2 hf2 hc2]

lemma get_products_miss_healthy {products : List Product} {r : Redis} (hf : r.faulty = false)
    (hmiss : storeGet r.store "all_products" = none) :
    get_products ⟨some r, products⟩ =
      .ok ⟨⟨productsJson products, 200⟩,
        ⟨some ⟨("all_products", productsJson products) ::
          r.store.filter (fun kv => kv.1 != "all_products"), false⟩, products⟩, 1⟩ := by
  simp [get_products, get_cached_data_healthy hf, hmiss, products_read_miss_healthy hf]

lemma get_product_hit {products : List Product} {r : Redis} {product_id : Nat} {v : Json}
    (hf : r.faulty = false) (hhit : storeGet r.store (product_cache_key product_id) = some v)
    (ht : v.truthy = true) :
    get_product ⟨some r, products⟩ product_id = .ok ⟨⟨v, 200⟩, ⟨some r, products⟩, 0⟩ := by
  simp [get_product, get_cached_data_healthy hf, hhit, ht]

lemma get_product_miss_found {products : List Product} {r : Redis} {product_id : Nat}
    {p : Product} (hf : r.faulty = false)
    (hmiss : storeGet r.store (product_cache_key product_id) = none)
    (hfind : products.find? (fun q => q.id == product_id) = some p) :
    get_product ⟨some r, products⟩ product_id =
      .ok ⟨⟨p.toJson, 200⟩, ⟨some ⟨(product_cache_key product_id, p.toJson) ::
        r.store.filter (fun kv => kv.1 != product_cache_key product_id), false⟩, products⟩, 1⟩ := by
  simp [get_product, get_cached_data_healthy hf, hmiss, product_read_miss_healthy hf hfind]

/-! ### Instrumentation facts -/

lemma after_request_count_same (m : Metrics) (q : Req) :
    (after_request m q).requestCount ("ecommerce-api", q.method, q.path, q.status)
      = m.requestCount ("ecommerce-api", q.method, q.path, q.status) + 1 := by
  simp [after_request, Metrics.inc, Metrics.observe]

lemma after_request_obs_same (m : Metrics) (q : Req) :
    (after_request m q).latencyObs ("ecommerce-api", q.method, q.path)
      = m.latencyObs ("ecommerce-api", q.method, q.path) ++ [q.t1 - q.t0] := by
  simp [after_request, Metrics.inc, Metrics.observe]

/-! ### The claims -/

/-- C1: for every sequence of read and write requests, the responses
produced with a healthy cache backend (starting empty) are identical in
content to the responses produced with the redis client absent — removing
the cache never changes any response, it can only change latency. -/
theorem c1_cache_transparency (ops : List Op) :
    runTrace ⟨some ⟨[], false⟩, PRODUCTS⟩ ops = runTrace ⟨none, PRODUCTS⟩ ops :=
  run_sim ops PRODUCTS ⟨[], false⟩ rfl (coherent_nil PRODUCTS)

/-- C2 counterexample: with a connected but failing backend, a cache fault
is not degraded to a miss — it surfaces as a hard error of the whole read
request (`get_cached_data` has no try/except). -/
theorem c2_cex_cache_fault_fails_request :
    get_products ⟨some ⟨[], true⟩, PRODUCTS⟩ = .error .redisError := rfl

/-- C2 (amended): cache operations degrade silently only when the redis
client is absent (the startup connection failed): then get is treated as
absent and set as ignored.  When the client is present and the backend
errors at call time, the exception propagates to the caller and fails the
surrounding request. -/
theorem c2_soft_fail_only_when_client_absent :
    (∀ key, get_cached_data none key = .ok none)
    ∧ (∀ key data, set_cached_data none key data = .ok none)
    ∧ (∀ (r : Redis) (key : String), r.faulty = true →
        get_cached_data (some r) key = .error .redisError)
    ∧ (∀ (r : Redis) (key : String) (data : Json), r.faulty = true →
        set_cached_data (some r) key data = .error .redisError) :=
  ⟨fun _ => rfl, fun _ _ => rfl,
   fun _ key hf => get_cached_data_faulty hf key,
   fun _ _ _ hf => by simp [set_cached_data, Redis.setex, hf]⟩

/-- C2 witness: the amended claim applied to a concrete failing backend. -/
theorem c2_soft_fail_witness :
    get_cached_data (some ⟨[], true⟩) "all_products" = .error .redisError :=
  c2_soft_fail_only_when_client_absent.2.2.1 ⟨[], true⟩ "all_products" rfl

/-- C3 counterexample: a POST whose payload lacks the required fields
`name` and `category` is not rejected: it returns 201, appends a sixth
product with null fields, and deletes the aggregate cache key. -/
theorem c3_cex_missing_field_accepted :
    create_product ⟨some ⟨[("all_products", productsJson PRODUCTS)], false⟩, PRODUCTS⟩
        (some (.obj [("price", .num 9.99)])) =
      .ok ⟨⟨(Product.toJson ⟨6, .null, .num 9.99, .null⟩), 201⟩,
        ⟨some ⟨[], false⟩, PRODUCTS ++ [⟨6, .null, .num 9.99, .null⟩]⟩, 0⟩ := rfl

/-- C3 (amended): the write path rejects with 400 — before any mutation or
cache interaction — exactly the requests whose JSON body is missing or
falsy; a truthy object payload is accepted even when required fields are
absent, the missing fields being stored as null. -/
theorem c3_validation_only_rejects_falsy_body :
    (∀ (s : AppState) (body : Option Json), pyTruthy body = false →
      create_product s body =
        .ok ⟨⟨.obj [("error", .str "Invalid request")], 400⟩, s, 0⟩)
    ∧ (∀ (s : AppState) (fields : List (String × Json)),
        s.redis_client = none → fields ≠ [] →
        create_product s (some (.obj fields)) =
          .ok ⟨⟨(newProductOf s.products fields).toJson, 201⟩,
            ⟨none, s.products ++ [newProductOf s.products fields]⟩, 0⟩) :=
  ⟨fun _ _ h => create_rejected h, fun _ _ hcl hne => create_ok_none hcl hne⟩

/-- C3 witness: the amended claim applied to a concrete falsy body. -/
theorem c3_validation_witness :
    create_product ⟨none, PRODUCTS⟩ (some (.obj [])) =
      .ok ⟨⟨.obj [("error", .str "Invalid request")], 400⟩, ⟨none, PRODUCTS⟩, 0⟩ :=
  c3_validation_only_rejects_falsy_body.1 ⟨none, PRODUCTS⟩ (some (.obj [])) rfl

/-- C4 counterexample: a valid write against a connected but failing
backend does not complete as a 201 — the `delete` raises after the source
commit (the `PRODUCTS.append`) already happened, and the error surfaces as
a failure of the write request. -/
theorem c4_cex_invalidation_error_fails_write :
    create_product ⟨some ⟨[("all_products", productsJson PRODUCTS)], true⟩, PRODUCTS⟩
        (some (.obj [("name", .str "Watch"), ("price", .num 99.99),
          ("category", .str "Accessories")])) =
      .error .redisError := rfl

/-- C4 (amended): the write survives a skipped invalidation only when the
redis client is absent — then the create returns 201 with the committed
record; when the client is present and `delete` errors at call time, the
exception propagates and the write request fails. -/
theorem c4_write_survives_only_absent_backend :
    (∀ (s : AppState) (fields : List (String × Json)),
      s.redis_client = none → fields ≠ [] →
      create_product s (some (.obj fields)) =
        .ok ⟨⟨(newProductOf s.products fields).toJson, 201⟩,
          ⟨none, s.products ++ [newProductOf s.products fields]⟩, 0⟩)
    ∧ (∀ (s : AppState) (r : Redis) (fields : List (String × Json)),
        s.redis_client = some r → r.faulty = true → fields ≠ [] →
        create_product s (some (.obj fields)) = .error .redisError) :=
  ⟨fun _ _ hcl hne => create_ok_none hcl hne,
   fun _ _ _ hcl hf hne => create_faulty_client hcl hf hne⟩

/-- C4 witness: the amended claim applied to a concrete client-absent
write. -/
theorem c4_write_survives_witness :
    create_product ⟨none, PRODUCTS⟩ (some (.obj [("name", .str "Watch")])) =
      .ok ⟨⟨(newProductOf PRODUCTS [("name", .str "Watch")]).toJson, 201⟩,
        ⟨none, PRODUCTS ++ [newProductOf PRODUCTS [("name", .str "Watch")]]⟩, 0⟩ :=
  c4_write_survives_only_absent_backend.1 ⟨none, PRODUCTS⟩ [("name", .str "Watch")]
    rfl (List.cons_ne_nil _ _)

/-- C5: a successful create with an available cache backend returns 201
with the new record, unconditionally deletes the aggregate key, grows the
store from n to n + 1 items, and the next aggregate read misses the cache
and returns the list including the new item. -/
theorem c5_write_invalidates_aggregate (products : List Product) (r : Redis)
    (fields : List (String × Json)) (hf : r.faulty = false) (hne : fields ≠ []) :
    ∃ store2 : List (String × Json),
      create_product ⟨some r, products⟩ (some (.obj fields)) =
        .ok ⟨⟨(newProductOf products fields).toJson, 201⟩,
          ⟨some ⟨store2, false⟩, products ++ [newProductOf products fields]⟩, 0⟩
      ∧ storeGet store2 "all_products" = none
      ∧ (products ++ [newProductOf products fields]).length = products.length + 1
      ∧ get_products ⟨some ⟨store2, false⟩, products ++ [newProductOf products fields]⟩ =
          .ok ⟨⟨productsJson (products ++ [newProductOf products fields]), 200⟩,
            ⟨some ⟨("all_products", productsJson (products ++ [newProductOf products fields])) ::
              store2.filter (fun kv => kv.1 != "all_products"), false⟩,
              products ++ [newProductOf products fields]⟩, 1⟩ := by
  refine ⟨r.store.filter (fun kv => kv.1 != "all_products"),
    create_ok_healthy rfl hf hne, storeGet_filter_self _ _, by simp, ?_⟩
  exact get_products_miss_healthy rfl (storeGet_filter_self _ _)

/-- C5 witness: the aggregate key is populated with the 5-item list, a
6th item is written, and the next aggregate read returns 6 items. -/
theorem c5_write_invalidates_aggregate_witness :
    ∃ store2 : List (String × Json),
      create_product ⟨some ⟨[("all_products", productsJson PRODUCTS)], false⟩, PRODUCTS⟩
          (some (.obj [("name", .str "Watch")])) =
        .ok ⟨⟨(newProductOf PRODUCTS [("name", .str "Watch")]).toJson, 201⟩,
          ⟨some ⟨store2, false⟩, PRODUCTS ++ [newProductOf PRODUCTS [("name", .str "Watch")]]⟩, 0⟩
      ∧ storeGet store2 "all_products" = none
      ∧ (PRODUCTS ++ [newProductOf PRODUCTS [("name", .str "Watch")]]).length
          = PRODUCTS.length + 1
      ∧ get_products ⟨some ⟨store2, false⟩,
          PRODUCTS ++ [newProductOf PRODUCTS [("name", .str "Watch")]]⟩ =
          .ok ⟨⟨productsJson (PRODUCTS ++ [newProductOf PRODUCTS [("name", .str "Watch")]]), 200⟩,
            ⟨some ⟨("all_products",
                productsJson (PRODUCTS ++ [newProductOf PRODUCTS [("name", .str "Watch")]])) ::
              store2.filter (fun kv => kv.1 != "all_products"), false⟩,
              PRODUCTS ++ [newProductOf PRODUCTS [("name", .str "Watch")]]⟩, 1⟩ :=
  c5_write_invalidates_aggregate PRODUCTS ⟨[("all_products", productsJson PRODUCTS)], false⟩
    [("name", .str "Watch")] rfl (List.cons_ne_nil _ _)

/-- C6: with a healthy cache holding no entry for an existing id, the
first read performs exactly one source lookup and populates the per-id
key; a second read of the same id is then served from the cache with the
same content and performs no source lookup (the count stays at 1). -/
theorem c6_second_read_served_from_cache (products : List Product) (r : Redis)
    (product_id : Nat) (p : Product) (hf : r.faulty = false)
    (hmiss : storeGet r.store (product_cache_key product_id) = none)
    (hfind : products.find? (fun q => q.id == product_id) = some p) :
    ∃ r2 : Redis,
      get_product ⟨some r, products⟩ product_id =
        .ok ⟨⟨p.toJson, 200⟩, ⟨some r2, products⟩, 1⟩
      ∧ get_product ⟨some r2, products⟩ product_id =
        .ok ⟨⟨p.toJson, 200⟩, ⟨some r2, products⟩, 0⟩ :=
  ⟨⟨(product_cache_key product_id, p.toJson) ::
      r.store.filter (fun kv => kv.1 != product_cache_key product_id), false⟩,
   get_product_miss_found hf hmiss hfind,
   get_product_hit rfl (storeGet_cons_self _ _ _) (truthy_toJson p)⟩

/-- C6 witness: two reads of id 3 from a fresh healthy cache. -/
theorem c6_second_read_witness :
    ∃ r2 : Redis,
      get_product ⟨some ⟨[], false⟩, PRODUCTS⟩ 3 =
        .ok ⟨⟨(Product.toJson ⟨3, .str "Headphones", .num 199.99, .str "Electronics"⟩), 200⟩,
          ⟨some r2, PRODUCTS⟩, 1⟩
      ∧ get_product ⟨some r2, PRODUCTS⟩ 3 =
        .ok ⟨⟨(Product.toJson ⟨3, .str "Headphones", .num 199.99, .str "Electronics"⟩), 200⟩,
          ⟨some r2, PRODUCTS⟩, 0⟩ :=
  c6_second_read_served_from_cache PRODUCTS ⟨[], false⟩ 3
    ⟨3, .str "Headphones", .num 199.99, .str "Electronics"⟩ rfl rfl rfl

/-- C7: reading an id the source does not contain returns the 404 body and
leaves the whole state — in particular the cache — untouched: no absent
marker is stored under the per-id key. -/
theorem c7_notfound_leaves_cache_untouched (s : AppState) (product_id : Nat)
    (hok : s.redis_client = none ∨ ∃ r : Redis, s.redis_client = some r ∧ r.faulty = false ∧
      storeGet r.store (product_cache_key product_id) = none)
    (hfind : s.products.find? (fun q => q.id == product_id) = none) :
    get_product s product_id =
      .ok ⟨⟨.obj [("error", .str "Product not found")], 404⟩, s, 1⟩ := by
  rcases hok with hcl | ⟨r, hcl, hf, hmiss⟩
  · simp [get_product, hcl, get_cached_data, product_read_miss_notfound hfind]
  · simp [get_product, hcl, get_cached_data_healthy hf, hmiss,
      product_read_miss_notfound hfind]

/-- C7 witness: reading the unknown id 99 against a fresh healthy cache. -/
theorem c7_notfound_witness :
    get_product ⟨some ⟨[], false⟩, PRODUCTS⟩ 99 =
      .ok ⟨⟨.obj [("error", .str "Product not found")], 404⟩,
        ⟨some ⟨[], false⟩, PRODUCTS⟩, 1⟩ :=
  c7_notfound_leaves_cache_untouched ⟨some ⟨[], false⟩, PRODUCTS⟩ 99
    (Or.inr ⟨⟨[], false⟩, rfl, rfl, rfl⟩) rfl

/-- C8 counterexample: one completed GET of product 123 is recorded under
the raw path label, which is not one of the declared route templates, and
nothing is recorded under any declared template — so the label is not
drawn from the finite set of declared routes. -/
theorem c8_cex_label_not_route_template :
    productPath 123 = "/api/products/123"
    ∧ (after_request emptyMetrics ⟨"GET", productPath 123, 200, 0, 1⟩).requestCount
        ("ecommerce-api", "GET", "/api/products/123", 200) = 1
    ∧ "/api/products/123" ∉ declaredRoutes
    ∧ (after_request emptyMetrics ⟨"GET", productPath 123, 200, 0, 1⟩).requestCount
        ("ecommerce-api", "GET", "/api/products/<int:product_id>", 200) = 0
    ∧ (after_request emptyMetrics ⟨"GET", productPath 123, 200, 0, 1⟩).requestCount
        ("ecommerce-api", "GET", "/api/products", 200) = 0 :=
  ⟨by decide, by decide, by decide, by decide, by decide⟩

/-- C8 (amended): the endpoint label `after_request` records is the raw
`request.path`, never the matched route template: every completed request
is counted and observed under its raw path, so the set of distinct labels
is bounded by the set of distinct observed paths, not by declared routes ×
methods × status codes. -/
theorem c8_label_is_raw_path (m : Metrics) (q : Req) :
    (after_request m q).requestCount ("ecommerce-api", q.method, q.path, q.status)
      = m.requestCount ("ecommerce-api", q.method, q.path, q.status) + 1
    ∧ (after_request m q).latencyObs ("ecommerce-api", q.method, q.path)
      = m.latencyObs ("ecommerce-api", q.method, q.path) ++ [q.t1 - q.t0] :=
  ⟨after_request_count_same m q, after_request_obs_same m q⟩

/-- C9: N completed requests to one route label increase that route's
request counter by exactly N and its histogram observation count by exactly
N, and every newly recorded latency observation is non-negative (given the
clock does not run backwards within a request). -/
theorem c9_metrics_fidelity (m : Metrics) (qs : List Req) (method path : String) (status : Nat)
    (hlab : ∀ q ∈ qs, q.method = method ∧ q.path = path ∧ q.status = status)
    (hmono : ∀ q ∈ qs, q.t0 ≤ q.t1) :
    (instrumentAll m qs).requestCount ("ecommerce-api", method, path, status)
        = m.requestCount ("ecommerce-api", method, path, status) + qs.length
    ∧ ((instrumentAll m qs).latencyObs ("ecommerce-api", method, path)).length
        = (m.latencyObs ("ecommerce-api", method, path)).length + qs.length
    ∧ (∀ d ∈ (instrumentAll m qs).latencyObs ("ecommerce-api", method, path),
        d ∈ m.latencyObs ("ecommerce-api", method, path) ∨ 0 ≤ d) := by
  induction qs generalizing m with
  | nil => exact ⟨rfl, rfl, fun _ hd => Or.inl hd⟩
  | cons q qs ih =>
    obtain ⟨hm, hp, hs⟩ := hlab q (List.mem_cons_self q qs)
    subst hm; subst hp; subst hs
    have hq : q.t0 ≤ q.t1 := hmono q (List.mem_cons_self q qs)
    have ihq := ih (after_request m q) (fun x hx => hlab x (List.mem_cons_of_mem q hx))
      (fun x hx => hmono x (List.mem_cons_of_mem q hx))
    refine ⟨?_, ?_, ?_⟩
    · simp only [instrumentAll]
      rw [ihq.1, after_request_count_same]
      simp only [List.length_cons]
      omega
    · simp only [instrumentAll]
      rw [ihq.2.1, after_request_obs_same]
      simp only [List.length_append, List.length_cons, List.length_nil]
      omega
    · intro d hd
      simp only [instrumentAll] at hd
      rcases ihq.2.2 d hd with hin | hnn
      · rw [after_request_obs_same] at hin
        rcases List.mem_append.mp hin with h1 | h2
        · exact Or.inl h1
        · right
          have hde : d = q.t1 - q.t0 := by simpa using h2
          rw [hde]
          exact Int.sub_nonneg.mpr hq
      · exact Or.inr hnn

/-- C9 witness: two GET /health requests observed on a fresh registry. -/
theorem c9_metrics_fidelity_witness :
    (instrumentAll emptyMetrics
        [⟨"GET", "/health", 200, 0, 2⟩, ⟨"GET", "/health", 200, 5, 5⟩]).requestCount
        ("ecommerce-api", "GET", "/health", 200)
      = emptyMetrics.requestCount ("ecommerce-api", "GET", "/health", 200) + 2
    ∧ ((instrumentAll emptyMetrics
        [⟨"GET", "/health", 200, 0, 2⟩, ⟨"GET", "/health", 200, 5, 5⟩]).latencyObs
        ("ecommerce-api", "GET", "/health")).length
      = (emptyMetrics.latencyObs ("ecommerce-api", "GET", "/health")).length + 2
    ∧ (∀ d ∈ (instrumentAll emptyMetrics
        [⟨"GET", "/health", 200, 0, 2⟩, ⟨"GET", "/health", 200, 5, 5⟩]).latencyObs
        ("ecommerce-api", "GET", "/health"),
        d ∈ emptyMetrics.latencyObs ("ecommerce-api", "GET", "/health") ∨ 0 ≤ d) :=
  c9_metrics_fidelity emptyMetrics
    [⟨"GET", "/health", 200, 0, 2⟩, ⟨"GET", "/health", 200, 5, 5⟩]
    "GET" "/health" 200 (by decide) (by decide)

/-- C10: a cached value whose deserialized form is falsy (empty list,
empty object, null, zero) is treated as a miss by both read paths: the
source is consulted again (one source lookup) and the cache key is
repopulated with the data recomputed from the source. -/
theorem c10_falsy_cached_treated_as_miss :
    (∀ (products : List Product) (r : Redis) (v : Json), r.faulty = false →
      storeGet r.store "all_products" = some v → v.truthy = false →
      get_products ⟨some r, products⟩ =
        .ok ⟨⟨productsJson products, 200⟩,
          ⟨some ⟨("all_products", productsJson products) ::
            r.store.filter (fun kv => kv.1 != "all_products"), false⟩, products⟩, 1⟩)
    ∧ (∀ (products : List Product) (r : Redis) (product_id : Nat) (v : Json) (p : Product),
        r.faulty = false → storeGet r.store (product_cache_key product_id) = some v →
        v.truthy = false → products.find? (fun q => q.id == product_id) = some p →
        get_product ⟨some r, products⟩ product_id =
          .ok ⟨⟨p.toJson, 200⟩,
            ⟨some ⟨(product_cache_key product_id, p.toJson) ::
              r.store.filter (fun kv => kv.1 != product_cache_key product_id), false⟩,
              products⟩, 1⟩) := by
  constructor
  · intro products r v hf hs ht
    simp [get_products, get_cached_data_healthy hf, hs, ht, products_read_miss_healthy hf]
  · intro products r product_id v p hf hs ht hfind
    simp [get_product, get_cached_data_healthy hf, hs, ht, product_read_miss_healthy hf hfind]

/-- C10 witness: an empty-list value cached under the aggregate key is
bypassed — the read returns the five source products and repopulates. -/
theorem c10_falsy_cached_witness :
    get_products ⟨some ⟨[("all_products", .arr [])], false⟩, PRODUCTS⟩ =
      .ok ⟨⟨productsJson PRODUCTS, 200⟩,
        ⟨some ⟨[("all_products", productsJson PRODUCTS)], false⟩, PRODUCTS⟩, 1⟩ :=
  c10_falsy_cached_treated_as_miss.1 PRODUCTS ⟨[("all_products", .arr [])], false⟩
    (.arr []) rfl rfl rfl

end ECom
